import Mathlib

/-!
Verification development for the `wtd_shares` repository.

The repository builds a pandas `DataFrame` of daily OHLC records fetched from
the WorldTradingData history endpoint and derives True Range and a 14-period
simple-moving-average ATR column from it (`src/wtd_shares/utils.py`), with
query parameters produced by `get_wtd_query_params` and configuration constants
in `src/wtd_shares/settings.py`.

The development embeds the program shallowly:

* Monetary values are modelled as rationals (`ℚ`); pandas "NaN"/missing cells
  are modelled as `Option` `none`.
* The derived-column stage (lines 100-114 of `utils.py`) is modelled over a
  numeric time series (`List Ohlc`), the reading under which the calculator
  claims quantify over a Time Series; the loader stage (lines 76-96) is
  modelled separately over the parsed JSON body.  The loader has no success
  path: line 96 hands the re-serialized JSON *string* to the pandas
  `DataFrame` constructor, which rejects every string with
  `ValueError("DataFrame constructor not properly called!")`, so the only
  reachable outcomes are `KeyError` (no `history` key), `TypeError`
  (non-mapping body) and `ValueError` (everything else).
* pandas semantics that the source relies on are embedded explicitly:
  `Series.shift(1)` moves every cell down one row and puts a missing value in
  row 0; `DataFrame.max(axis=1)` takes the row-wise maximum, *skipping*
  missing cells (it is missing only when every cell of the row is missing);
  `Series.rolling(14).apply(f)` yields a missing value whenever the window
  holds fewer than 14 non-missing observations (`min_periods` defaults to the
  window size) and otherwise applies `f` to the window.
* Python `datetime` values are modelled as proleptic-Gregorian calendar
  triples, with `timedelta(days=n)` subtraction going through the standard
  civil-from-day-number conversion, and `strftime` modelled for the
  directives that `settings.DATE_FORMAT` uses.
-/

/-! ## The numeric time series

One parsed OHLC record (§3 of the payload: one `history` entry). -/

structure Ohlc where
  «open» : ℚ
  high : ℚ
  low : ℚ
  close : ℚ
  volume : ℚ
deriving DecidableEq

/-- Column `high` of the frame, as a partial (index → value) map:
`none` past the end of the series. -/
def colHigh (s : List Ohlc) (i : ℕ) : Option ℚ := (s[i]?).map Ohlc.high

/-- Column `low` of the frame. -/
def colLow (s : List Ohlc) (i : ℕ) : Option ℚ := (s[i]?).map Ohlc.low

/-- Column `close` of the frame. -/
def colClose (s : List Ohlc) (i : ℕ) : Option ℚ := (s[i]?).map Ohlc.close

/-- `Series.shift(1)`: row `i` reads the previous row's value, row 0 is
missing. -/
def shift1 (c : ℕ → Option ℚ) (i : ℕ) : Option ℚ :=
  if i = 0 then none else c (i - 1)

/-- Elementwise subtraction with missing-value propagation (pandas `-` on
float columns: any NaN operand gives NaN). -/
def optSub : Option ℚ → Option ℚ → Option ℚ
  | some a, some b => some (a - b)
  | _, _ => none

/-- Elementwise `abs` with missing-value propagation. -/
def optAbs (a : Option ℚ) : Option ℚ := a.map (fun q => |q|)

/-- `df['TH-TL'] = df['high'] - df['low']` (utils.py line 100). -/
def thtlCol (s : List Ohlc) (i : ℕ) : Option ℚ :=
  optSub (colHigh s i) (colLow s i)

/-- `df['TH-YC'] = abs(df['high'] - df['low'].shift(1))` (utils.py line 102).
Note the source subtracts the shifted *low*, not the shifted close. -/
def thycCol (s : List Ohlc) (i : ℕ) : Option ℚ :=
  optAbs (optSub (colHigh s i) (shift1 (colLow s) i))

/-- `df['TL-YC'] = abs(df['low'] - df['close'].shift(1))` (utils.py line 103). -/
def tlycCol (s : List Ohlc) (i : ℕ) : Option ℚ :=
  optAbs (optSub (colLow s i) (shift1 (colClose s) i))

/-- Row-wise maximum of two columns, as `DataFrame.max(axis=1)` computes it:
missing cells are skipped, and the result is missing only when both cells
are. -/
def rowMax2 : Option ℚ → Option ℚ → Option ℚ
  | some a, some b => some (max a b)
  | some a, none => some a
  | none, some b => some b
  | none, none => none

/-- `df['True Range'] = df[['TH-TL', 'TL-YC']].max(axis=1)` (utils.py
line 107). -/
def trueRangeCol (s : List Ohlc) (i : ℕ) : Option ℚ :=
  rowMax2 (thtlCol s i) (tlycCol s i)

/-- `Series.rolling(14).apply(lambda x: sum(x) / 14)`: the window at row `i`
covers rows `max(0, i-13) .. i`; with `min_periods` at its default (the window
size) the result is missing unless the window holds 14 non-missing
observations, and otherwise is their sum divided by 14. -/
def rollingApply14 (c : ℕ → Option ℚ) (i : ℕ) : Option ℚ :=
  let w := (List.range (min 14 (i + 1))).map fun k => c (i - k)
  let obs := w.filterMap id
  if obs.length < 14 then none else some (obs.sum / 14)

/-- `df['ATR (sma)'] = df['True Range'].rolling(14).apply(lambda x: sum(x) / 14)`
(utils.py line 114). -/
def atrCol (s : List Ohlc) (i : ℕ) : Option ℚ :=
  rollingApply14 (trueRangeCol s) i

/-! Concrete series used by witnesses and counterexamples.  The two-row series
is the worked example of the repository's data (2018-10-15 and 2018-10-16 UKX
records). -/

/-- 2018-10-15: high 7050, low 7000, close 7010 (open/volume immaterial). -/
def rec1015 : Ohlc := ⟨0, 7050, 7000, 7010, 0⟩

/-- 2018-10-16: high 7062.08, low 6998.93, close 7059.40. -/
def rec1016 : Ohlc := ⟨702922/100, 706208/100, 699893/100, 705940/100, 0⟩

/-- The two-row example series, ascending by date. -/
def exSeries2 : List Ohlc := [rec1015, rec1016]

/-- A 14-row series with strictly increasing highs and constant low/close,
used by witnesses. -/
def exW : List Ohlc :=
  [⟨0, 7000, 6990, 6995, 0⟩, ⟨0, 7001, 6990, 6995, 0⟩, ⟨0, 7002, 6990, 6995, 0⟩,
   ⟨0, 7003, 6990, 6995, 0⟩, ⟨0, 7004, 6990, 6995, 0⟩, ⟨0, 7005, 6990, 6995, 0⟩,
   ⟨0, 7006, 6990, 6995, 0⟩, ⟨0, 7007, 6990, 6995, 0⟩, ⟨0, 7008, 6990, 6995, 0⟩,
   ⟨0, 7009, 6990, 6995, 0⟩, ⟨0, 7010, 6990, 6995, 0⟩, ⟨0, 7011, 6990, 6995, 0⟩,
   ⟨0, 7012, 6990, 6995, 0⟩, ⟨0, 7013, 6990, 6995, 0⟩]

/-- "Every defined value of this column is non-negative", read cell-wise. -/
def optNonneg : Option ℚ → Prop
  | none => True
  | some q => 0 ≤ q

/-! ## Dates and the query parameter builder

Python `datetime` values are modelled as civil calendar triples;
`timedelta(days=n)` arithmetic goes through the standard civil/day-number
conversions (time-of-day is dropped by `DATE_FORMAT`, so it is not
modelled). -/

structure DateTime where
  year : ℤ
  month : ℤ
  day : ℤ
deriving DecidableEq

/-- Day number of a proleptic-Gregorian civil date (days since 1970-01-01), by
the standard civil-to-day-number conversion; Python `datetime` subtraction is
arithmetic on this number. -/
def daysFromCivil (dt : DateTime) : ℤ :=
  let y := if dt.month ≤ 2 then dt.year - 1 else dt.year
  let era := y.fdiv 400
  let yoe := y - era * 400
  let mp := if 2 < dt.month then dt.month - 3 else dt.month + 9
  let doy := (153 * mp + 2).fdiv 5 + dt.day - 1
  let doe := yoe * 365 + yoe.fdiv 4 - yoe.fdiv 100 + doy
  era * 146097 + doe - 719468

/-- Civil date of a day number (the inverse conversion). -/
def civilFromDays (z0 : ℤ) : DateTime :=
  let z := z0 + 719468
  let era := z.fdiv 146097
  let doe := z - era * 146097
  let yoe := (doe - doe.fdiv 1460 + doe.fdiv 36524 - doe.fdiv 146096).fdiv 365
  let doy := doe - (365 * yoe + yoe.fdiv 4 - yoe.fdiv 100)
  let mp := (5 * doy + 2).fdiv 153
  let d := doy - (153 * mp + 2).fdiv 5 + 1
  let m := mp + (if mp < 10 then 3 else -9)
  ⟨yoe + era * 400 + (if m ≤ 2 then 1 else 0), m, d⟩

/-- `end_date - timedelta(days=previous_days)` (utils.py line 43). -/
def dtSubDays (dt : DateTime) (n : ℤ) : DateTime :=
  civilFromDays (daysFromCivil dt - n)

/-- The decimal digit character of `n % 10`. -/
def digitChar (n : ℕ) : Char := Char.ofNat (48 + n % 10)

/-- A two-digit zero-padded decimal field (strftime `%m`, `%d`). -/
def pad2 (n : ℤ) : List Char := [digitChar (n.toNat / 10), digitChar n.toNat]

/-- A four-digit zero-padded decimal field (strftime `%Y`, over the year range
Python `datetime` supports). -/
def pad4 (n : ℤ) : List Char :=
  [digitChar (n.toNat / 1000), digitChar (n.toNat / 100),
   digitChar (n.toNat / 10), digitChar n.toNat]

/-- `datetime.strftime`, for the directives `settings.DATE_FORMAT` uses
(`%Y`, `%m`, `%d`); every other format character is copied verbatim. -/
def strftimeRun : List Char → DateTime → List Char
  | [], _ => []
  | '%' :: 'Y' :: rest, dt => pad4 dt.year ++ strftimeRun rest dt
  | '%' :: 'm' :: rest, dt => pad2 dt.month ++ strftimeRun rest dt
  | '%' :: 'd' :: rest, dt => pad2 dt.day ++ strftimeRun rest dt
  | c :: rest, dt => c :: strftimeRun rest dt

/-- `settings.DATE_FORMAT` (settings.py line 3). -/
def DATE_FORMAT : String := "%Y-%m-%d"

/-- `utils.date_format`: `date.strftime(settings.DATE_FORMAT)` (utils.py
lines 10-19). -/
def date_format (date : DateTime) : String :=
  String.mk (strftimeRun DATE_FORMAT.toList date)

/-- A Python value that a query-parameter entry can hold: a string, or
`None`. -/
inductive PyVal
  | str (s : String)
  | pyNone
deriving DecidableEq

/-- `os.getenv` over a process environment modelled as an association list. -/
def getenv (env : List (String × String)) (k : String) : Option String :=
  (env.find? fun kv => kv.1 == k).map fun kv => kv.2

/-- `settings.WTD_API_TOKEN = os.getenv('WTD_API_TOKEN')` (settings.py
line 8): `None` when the environment variable is unset. -/
def WTD_API_TOKEN (env : List (String × String)) : Option String :=
  getenv env "WTD_API_TOKEN"

/-- The Python value of the `api_token` entry: the token string, or `None`. -/
def pyOfToken : Option String → PyVal
  | some t => .str t
  | none => .pyNone

/-- Python `dict[key]` over an insertion-ordered mapping with distinct keys. -/
def alistGet {α : Type} (kvs : List (String × α)) (k : String) : Option α :=
  (kvs.find? fun kv => kv.1 == k).map fun kv => kv.2

/-- `utils.get_wtd_query_params` (utils.py lines 22-53).  `today` stands for
`datetime.today()` at call time and `wtd_api_token` for
`settings.WTD_API_TOKEN`.  An absent optional argument is `none`; in the
source the defaults are `symbol='UKX'`, `previous_days=300`, `sort='oldest'`
and `None` for both dates, and since `datetime` objects are always truthy,
`if not end_date` / `if not start_date` test exactly for an absent argument. -/
def get_wtd_query_params (today : DateTime) (wtd_api_token : Option String)
    (symbol : String) (start_date end_date : Option DateTime)
    (previous_days : ℤ) (sort : String) : List (String × PyVal) :=
  let end_date := match end_date with
    | none => today
    | some e => e
  let start_date := match start_date with
    | none => dtSubDays end_date previous_days
    | some s => s
  [("symbol", .str symbol), ("sort", .str sort),
   ("date_from", .str (date_format start_date)),
   ("date_to", .str (date_format end_date)),
   ("api_token", pyOfToken wtd_api_token)]

/-! ## The response payload, the loader and the raw frame

The parsed JSON body of the provider's response (`json.loads(response.text)`,
utils.py line 76).  The payloads this API serves are objects of scalars and
nested objects, as in the inline example of utils.py lines 78-90. -/

inductive Json
  | null
  | num (q : ℚ)
  | str (s : String)
  | obj (members : List (String × Json))

/-- Python exception kinds arising in this pipeline.  `malformedResponse`
stands for the `MalformedResponseError` the specification names; the source
defines no such exception class and never raises it, so no computation below
ever produces this value. -/
inductive PyError
  | keyError (k : String)
  | typeError
  | valueError
  | malformedResponse
deriving DecidableEq

/-- One row of the date-indexed table the loader is meant to build (a date
label with the record's fields).  It is the loader's nominal success shape
only: as proved below, no run of the source ever produces one. -/
structure RawRow where
  date : String
  fields : List (String × Json)

/-- Lines 76-96 of utils.py.  `data['history']` raises a `KeyError` when the
key is absent (the subscript is evaluated before `json.dumps` is called) and
a `TypeError` when the parsed body is not a mapping.  In every other case
`json.dumps` re-serializes the history value — any JSON value serializes —
and line 96 hands the resulting *string* to the pandas `DataFrame`
constructor, which rejects every string (and every other scalar) with
`ValueError("DataFrame constructor not properly called!")`, whatever the
history holds.  The loader therefore has no success path: the `.ok`
constructor of the result type is never produced. -/
def loadHistory (data : Json) : Except PyError (List RawRow) :=
  match data with
  | .obj members =>
    match alistGet members "history" with
    | none => .error (.keyError "history")
    | some _ => .error .valueError
  | _ => .error .typeError

/-- `utils.get_atr_dataframe` (lines 56-116) from the parsed response body
on; the query-parameter construction and the HTTP fetch that precede
`json.loads` are the external collaborator.  Because the loader raises on
every body, control never reaches the derived-column stage of lines 100-114
(whose arithmetic is embedded over numeric series as `thtlCol` … `atrCol`
above): the pipeline's outcome is always the loader's exception. -/
def get_atr_dataframe (payload : Json) : Except PyError (List RawRow) :=
  loadHistory payload

/-- Whether the pipeline returned a result rather than raising. -/
def pipelineOk (p : Json) : Bool :=
  match get_atr_dataframe p with
  | .ok _ => true
  | .error _ => false

/-- The ordered date labels of a successfully loaded series (`none` when the
loader raised). -/
def loadedDates (p : Json) : Option (List String) :=
  match loadHistory p with
  | .ok rows => some (rows.map RawRow.date)
  | .error _ => none

/-! Concrete payloads for the loader claims, with the string-valued fields
this provider returns (utils.py lines 78-90). -/

/-- The 2018-10-16 record of the inline example in utils.py. -/
def jrec1016 : Json :=
  .obj [("open", .str "7029.22"), ("close", .str "7059.40"),
        ("high", .str "7062.08"), ("low", .str "6998.93"),
        ("volume", .str "0")]

/-- A second record, dated 2018-10-17. -/
def jrec1017 : Json :=
  .obj [("open", .str "7059.40"), ("close", .str "7053.76"),
        ("high", .str "7088.09"), ("low", .str "7033.40"),
        ("volume", .str "0")]

/-- The same record as `jrec1016` with its `close` field missing. -/
def jrecMissingClose : Json :=
  .obj [("open", .str "7029.22"), ("high", .str "7062.08"),
        ("low", .str "6998.93"), ("volume", .str "0")]

/-- The history entries in ascending key order. -/
def histW : List (String × Json) :=
  [("2018-10-16", jrec1016), ("2018-10-17", jrec1017)]

/-- A payload whose history keys arrive in ascending date order. -/
def payloadAsc : Json :=
  .obj [("name", .str "UKX"), ("history", .obj histW)]

/-- The same records, with the history keys in descending date order. -/
def payloadDesc : Json :=
  .obj [("name", .str "UKX"),
        ("history", .obj [("2018-10-17", jrec1017), ("2018-10-16", jrec1016)])]

/-- A payload with no `history` key at all. -/
def payloadNoHistory : Json := .obj [("name", .str "UKX")]

/-- A payload whose single record lacks its `close` field. -/
def payloadMissingField : Json :=
  .obj [("history", .obj [("2018-10-16", jrecMissingClose)])]

/-- A payload whose `history` is the empty object. -/
def payloadEmptyHistory : Json :=
  .obj [("name", .str "UKX"), ("history", .obj [])]

/-! ## Helper lemmas about the derived columns -/

/-- Summing the present values of a column equals summing with missing cells
read as 0 (missing cells that are skipped contribute nothing). -/
theorem filterMap_id_sum (l : List (Option ℚ)) :
    (l.filterMap id).sum = (l.map fun o => o.getD 0).sum := by
  induction l with
  | nil => rfl
  | cons a t ih => cases a <;> simp [List.filterMap_cons, ih]

/-- A column with no missing cell keeps its length under `filterMap id`. -/
theorem filterMap_id_length {α : Type} (l : List (Option α))
    (h : ∀ x ∈ l, x.isSome = true) : (l.filterMap id).length = l.length := by
  induction l with
  | nil => rfl
  | cons a t ih =>
    cases a with
    | none => exact absurd (h none (List.mem_cons_self _ _)) (by simp)
    | some b =>
      simp [List.filterMap_cons, ih fun x hx => h x (List.mem_cons_of_mem _ hx)]

/-- Every in-range row has a defined True Range: `TH-TL` is always present and
the row-wise maximum skips the (possibly missing) `TL-YC` cell. -/
theorem trueRangeCol_isSome (s : List Ohlc) (i : ℕ) (hi : i < s.length) :
    (trueRangeCol s i).isSome = true := by
  have h : s[i]? = some s[i] := List.getElem?_eq_getElem hi
  unfold trueRangeCol thtlCol colHigh colLow
  rw [h]
  cases htl : tlycCol s i <;> simp [optSub, rowMax2]

/-- A present `TH-TL` cell is the high-low spread of a record of the series. -/
theorem thtlCol_eq (s : List Ohlc) (i : ℕ) (a : ℚ) (h : thtlCol s i = some a) :
    ∃ r, r ∈ s ∧ a = r.high - r.low := by
  unfold thtlCol colHigh colLow at h
  cases hg : s[i]? with
  | none => rw [hg] at h; simp [optSub] at h
  | some r =>
    rw [hg] at h
    simp [optSub] at h
    exact ⟨r, List.getElem?_mem hg, h.symm⟩

/-- A present `TL-YC` cell is an absolute value, hence non-negative. -/
theorem tlycCol_nonneg (s : List Ohlc) (i : ℕ) (b : ℚ)
    (h : tlycCol s i = some b) : 0 ≤ b := by
  unfold tlycCol optAbs at h
  cases hg : optSub (colLow s i) (shift1 (colClose s) i) with
  | none => rw [hg] at h; simp at h
  | some q =>
    rw [hg] at h
    simp at h
    exact h ▸ abs_nonneg q

/-! ## Claims about the calculator -/

/-- C1 (amended): for every time series and every row `i ≥ 1`, the True Range
column equals `max(TH-TL[i], TL-YC[i]) = max(high[i] - low[i], |low[i] -
close[i-1]|)` — the `TH-YC` column does not participate — while at row 0 the
row-wise maximum skips the missing `TL-YC` cell, so `True Range[0]` is the
*defined* value `TH-TL[0] = high[0] - low[0]` rather than missing. -/
theorem true_range_is_max_of_thtl_tlyc (s : List Ohlc) (i : ℕ) (r p : Ohlc)
    (h1 : 1 ≤ i) (hc : s[i]? = some r) (hp : s[i - 1]? = some p)
    (r0 : Ohlc) (h0 : s[0]? = some r0) :
    trueRangeCol s i = some (max (r.high - r.low) |r.low - p.close|)
    ∧ trueRangeCol s 0 = some (r0.high - r0.low) := by
  have hi0 : i ≠ 0 := by omega
  constructor
  · simp [trueRangeCol, thtlCol, tlycCol, colHigh, colLow, colClose, shift1,
      optSub, optAbs, rowMax2, hc, hp, hi0]
  · simp [trueRangeCol, thtlCol, tlycCol, colHigh, colLow, colClose, shift1,
      optSub, optAbs, rowMax2, h0]

/-- C1 counterexample to the claim as stated: on the repository's own worked
example the True Range at row 0 is *defined* (it equals `TH-TL[0] = 50`),
whereas the claim asserts it is missing. -/
theorem true_range_row_zero_defined_cex :
    (trueRangeCol exSeries2 0).isSome = true ∧ trueRangeCol exSeries2 0 = some 50 :=
  ⟨rfl, by
    norm_num [trueRangeCol, thtlCol, tlycCol, colHigh, colLow, colClose,
      shift1, optSub, optAbs, rowMax2, exSeries2, rec1015, rec1016]⟩

/-- C1 witness. -/
theorem true_range_is_max_of_thtl_tlyc_witness :
    1 ≤ 1 ∧ exSeries2[1]? = some rec1016 ∧ exSeries2[1 - 1]? = some rec1015
    ∧ exSeries2[0]? = some rec1015
    ∧ (trueRangeCol exSeries2 1 = some (max (rec1016.high - rec1016.low)
          |rec1016.low - rec1015.close|)
       ∧ trueRangeCol exSeries2 0 = some (rec1015.high - rec1015.low)) :=
  ⟨by decide, by rfl, by rfl, by rfl,
    true_range_is_max_of_thtl_tlyc exSeries2 1 rec1016 rec1015 (by decide)
      (by rfl) (by rfl) rec1015 (by rfl)⟩

/-- C2: at every row `i` of the series, the `ATR (sma)` value is defined iff
`i ≥ 13` and all fourteen True Range values at rows `i-13 .. i` are defined
(the rolling window demands 14 observations), and for `i ≥ 13` it equals the
sum of those fourteen True Range values divided by 14. -/
theorem atr_window_mean_spec (s : List Ohlc) (i : ℕ) (hi : i < s.length) :
    ((atrCol s i).isSome = true ↔
      (13 ≤ i ∧ (((List.range 14).map fun k => trueRangeCol s (i - k)).all
        Option.isSome) = true))
    ∧ (13 ≤ i →
      atrCol s i = some ((((List.range 14).map fun k =>
        (trueRangeCol s (i - k)).getD 0).sum) / 14)) := by
  have hall : ∀ k : ℕ, (trueRangeCol s (i - k)).isSome = true := fun k =>
    trueRangeCol_isSome s (i - k) (lt_of_le_of_lt (Nat.sub_le i k) hi)
  have hdef : 13 ≤ i →
      atrCol s i = some ((((List.range 14).map fun k =>
        (trueRangeCol s (i - k)).getD 0).sum) / 14) := by
    intro h13
    have hmin : min 14 (i + 1) = 14 := by omega
    unfold atrCol rollingApply14
    rw [hmin]
    set w := (List.range 14).map fun k => trueRangeCol s (i - k) with hw
    have hwmem : ∀ x ∈ w, x.isSome = true := by
      intro x hx
      rw [hw] at hx
      obtain ⟨k, _, rfl⟩ := List.mem_map.mp hx
      exact hall k
    have hlen : (w.filterMap id).length = w.length := filterMap_id_length w hwmem
    have hwl : w.length = 14 := by simp [hw]
    rw [if_neg (by omega : ¬ (w.filterMap id).length < 14)]
    congr 1
    rw [filterMap_id_sum w, hw, List.map_map]
    rfl
  have hundef : i < 13 → atrCol s i = none := by
    intro h13
    unfold atrCol rollingApply14
    have hmin : min 14 (i + 1) = i + 1 := by omega
    rw [hmin]
    refine if_pos ?_
    have h1 := List.length_filterMap_le (id : Option ℚ → Option ℚ)
      ((List.range (i + 1)).map fun k => trueRangeCol s (i - k))
    have h2 : ((List.range (i + 1)).map fun k => trueRangeCol s (i - k)).length
        = i + 1 := by simp
    omega
  refine ⟨⟨fun hs => ?_, ?_⟩, hdef⟩
  · have h13 : 13 ≤ i := by
      rcases Nat.lt_or_ge i 13 with h | h
      · rw [hundef h] at hs; simp at hs
      · exact h
    refine ⟨h13, ?_⟩
    simp only [List.all_eq_true]
    intro x hx
    obtain ⟨k, _, rfl⟩ := List.mem_map.mp hx
    exact hall k
  · rintro ⟨h13, _⟩
    rw [hdef h13]
    rfl

/-- C2 witness. -/
theorem atr_window_mean_spec_witness :
    13 < exW.length
    ∧ (((atrCol exW 13).isSome = true ↔
        (13 ≤ 13 ∧ (((List.range 14).map fun k => trueRangeCol exW (13 - k)).all
          Option.isSome) = true))
       ∧ (13 ≤ 13 →
         atrCol exW 13 = some ((((List.range 14).map fun k =>
           (trueRangeCol exW (13 - k)).getD 0).sum) / 14))) :=
  ⟨by decide, atr_window_mean_spec exW 13 (by decide)⟩

/-- C4: the `TH-YC` column at row `i ≥ 1` is the absolute value of `high[i]`
minus the *previous row's low* (the source shifts the `low` column, not the
`close` column), and it is missing at row 0. -/
theorem thyc_uses_previous_low (s : List Ohlc) (i : ℕ) (r p : Ohlc)
    (h1 : 1 ≤ i) (hc : s[i]? = some r) (hp : s[i - 1]? = some p) :
    thycCol s i = some |r.high - p.low| ∧ thycCol s 0 = none := by
  have hi0 : i ≠ 0 := by omega
  constructor
  · simp [thycCol, colHigh, colLow, shift1, optSub, optAbs, hc, hp, hi0]
  · cases hg : colHigh s 0 <;>
      simp [thycCol, colHigh, colLow, shift1, optSub, optAbs, hg]

/-- C4 witness. -/
theorem thyc_uses_previous_low_witness :
    1 ≤ 1 ∧ exSeries2[1]? = some rec1016 ∧ exSeries2[1 - 1]? = some rec1015
    ∧ (thycCol exSeries2 1 = some |rec1016.high - rec1015.low|
       ∧ thycCol exSeries2 0 = none) :=
  ⟨by decide, by rfl, by rfl,
    thyc_uses_previous_low exSeries2 1 rec1016 rec1015 (by decide) (by rfl)
      (by rfl)⟩

/-- C7: if every record of the series has `low ≤ high`, then every defined
True Range value is non-negative. -/
theorem true_range_nonneg (s : List Ohlc) (hlh : ∀ r ∈ s, r.low ≤ r.high)
    (i : ℕ) : optNonneg (trueRangeCol s i) := by
  unfold trueRangeCol
  cases hth : thtlCol s i with
  | none =>
    cases htl : tlycCol s i with
    | none => simp [rowMax2, optNonneg]
    | some b => simpa [rowMax2, optNonneg] using tlycCol_nonneg s i b htl
  | some a =>
    have ha : 0 ≤ a := by
      obtain ⟨r, hr, rfl⟩ := thtlCol_eq s i a hth
      exact sub_nonneg.mpr (hlh r hr)
    cases htl : tlycCol s i with
    | none => simpa [rowMax2, optNonneg] using ha
    | some b =>
      have : 0 ≤ max a b := le_trans ha (le_max_left a b)
      simpa [rowMax2, optNonneg] using this

/-- C7 witness. -/
theorem true_range_nonneg_witness :
    (∀ r ∈ exW, r.low ≤ r.high) ∧ optNonneg (trueRangeCol exW 1) :=
  ⟨by decide, true_range_nonneg exW (by decide) 1⟩

/-! ## Claims about the query parameter builder -/

/-- C8: an absent `end_date` defaults to the current date at call time; an
absent `start_date` is `end_date` minus `previous_days` calendar days; with an
explicit `start_date`, `previous_days` has no effect on the result; the
returned map holds exactly the keys symbol, sort, date_from, date_to,
api_token in that order; and both dates go through `date_format`, which
always produces a ten-character `YYYY-MM-DD` string (dashes at positions 4
and 7, decimal digits elsewhere). -/
theorem query_params_builder_spec (today s e : DateTime)
    (sd ed : Option DateTime) (tok : Option String) (sym srt : String)
    (p p1 p2 : ℤ) :
    alistGet (get_wtd_query_params today tok sym sd none p srt) "date_to"
      = some (.str (date_format today))
    ∧ alistGet (get_wtd_query_params today tok sym none (some e) p srt)
        "date_from" = some (.str (date_format (dtSubDays e p)))
    ∧ alistGet (get_wtd_query_params today tok sym none none p srt)
        "date_from" = some (.str (date_format (dtSubDays today p)))
    ∧ get_wtd_query_params today tok sym (some s) ed p1 srt
      = get_wtd_query_params today tok sym (some s) ed p2 srt
    ∧ (get_wtd_query_params today tok sym sd ed p srt).map Prod.fst
      = ["symbol", "sort", "date_from", "date_to", "api_token"]
    ∧ alistGet (get_wtd_query_params today tok sym (some s) ed p srt)
        "date_from" = some (.str (date_format s))
    ∧ (date_format s).length = 10
    ∧ (date_format s).toList[4]? = some '-'
    ∧ (date_format s).toList[7]? = some '-' := by
  refine ⟨?_, ?_, ?_, ?_, ?_, ?_, ?_, ?_, ?_⟩
  · rfl
  · rfl
  · rfl
  · rfl
  · rfl
  · cases ed <;> rfl
  · rfl
  · rfl
  · rfl

/-- C9: the returned map always carries an `api_token` entry holding
`settings.WTD_API_TOKEN`, i.e. `os.getenv('WTD_API_TOKEN')` read from the
process environment; when the variable is unset the builder still returns
normally and the entry is Python `None` — no detection or rejection of an
absent token happens in this component. -/
theorem api_token_from_config (env : List (String × String)) (today : DateTime)
    (sym srt : String) (sd ed : Option DateTime) (p : ℤ) :
    alistGet (get_wtd_query_params today (WTD_API_TOKEN env) sym sd ed p srt)
      "api_token" = some (pyOfToken (WTD_API_TOKEN env))
    ∧ (WTD_API_TOKEN env = none →
      alistGet (get_wtd_query_params today (WTD_API_TOKEN env) sym sd ed p srt)
        "api_token" = some PyVal.pyNone) := by
  constructor
  · rfl
  · intro h
    rw [h]
    rfl

/-- C9 witness: with an empty environment the token is `None` and the entry
is returned as `None`. -/
theorem api_token_from_config_witness :
    alistGet (get_wtd_query_params ⟨2019, 1, 3⟩ (WTD_API_TOKEN []) "UKX" none
      none 300 "oldest") "api_token" = some (pyOfToken (WTD_API_TOKEN []))
    ∧ (WTD_API_TOKEN [] = none
       ∧ alistGet (get_wtd_query_params ⟨2019, 1, 3⟩ (WTD_API_TOKEN []) "UKX"
           none none 300 "oldest") "api_token" = some PyVal.pyNone) :=
  ⟨(api_token_from_config [] ⟨2019, 1, 3⟩ "UKX" "oldest" none none 300).1,
   by rfl,
   (api_token_from_config [] ⟨2019, 1, 3⟩ "UKX" "oldest" none none 300).2
     (by rfl)⟩

/-- C10: no ordering validation is performed on the date range: an explicit
`start_date` later than `end_date` — and likewise a negative
`previous_days` — yields, without any error, a params map whose `date_from`
is strictly later than its `date_to`. -/
theorem no_date_range_validation :
    alistGet (get_wtd_query_params ⟨2020, 4, 1⟩ none "UKX" (some ⟨2020, 5, 1⟩)
      (some ⟨2020, 4, 1⟩) 300 "oldest") "date_from"
      = some (.str "2020-05-01")
    ∧ alistGet (get_wtd_query_params ⟨2020, 4, 1⟩ none "UKX" (some ⟨2020, 5, 1⟩)
        (some ⟨2020, 4, 1⟩) 300 "oldest") "date_to"
      = some (.str "2020-04-01")
    ∧ daysFromCivil ⟨2020, 4, 1⟩ < daysFromCivil ⟨2020, 5, 1⟩
    ∧ alistGet (get_wtd_query_params ⟨2020, 4, 1⟩ none "UKX" none
        (some ⟨2020, 4, 1⟩) (-5) "oldest") "date_from"
      = some (.str "2020-04-06")
    ∧ daysFromCivil ⟨2020, 4, 1⟩ < daysFromCivil (dtSubDays ⟨2020, 4, 1⟩ (-5)) := by
  refine ⟨by rfl, by rfl, by decide, by rfl, by decide⟩

/-! ## Claims about the loader and the end-to-end pipeline -/

/-- C3 counterexample to the claim as stated: even for the well-formed
payload whose history keys arrive in ascending date order, no Time Series is
loaded at all — the `DataFrame` constructor rejects the re-serialized string
— so there are no loaded rows to stand in any date order, and the ordering
the claim describes never exists. -/
theorem loader_key_order_cex :
    loadHistory payloadAsc = .error .valueError
    ∧ loadedDates payloadAsc = none
    ∧ loadHistory payloadDesc = .error .valueError
    ∧ loadedDates payloadDesc = none :=
  ⟨by rfl, by rfl, by rfl, by rfl⟩

/-- C3 (amended): no Time Series is ever loaded, in any order: every payload
whose parsed body is a mapping holding a `history` key fails with the
`DataFrame` constructor's `ValueError` (utils.py line 96 hands it the
re-serialized JSON string, which it rejects), whatever the key order; the
rows the claim speaks of never exist, and invariance under key order holds
only in the trivial sense that all such payloads fail with the identical
exception. -/
theorem loader_never_yields_series (members : List (String × Json)) (v : Json)
    (h : alistGet members "history" = some v) :
    loadHistory (Json.obj members) = .error .valueError
    ∧ loadedDates (Json.obj members) = none := by
  have h1 : loadHistory (Json.obj members) = .error .valueError := by
    simp only [loadHistory]
    rw [h]
  exact ⟨h1, by unfold loadedDates; rw [h1]⟩

/-- C3 witness. -/
theorem loader_never_yields_series_witness :
    alistGet [("name", Json.str "UKX"), ("history", Json.obj histW)] "history"
      = some (Json.obj histW)
    ∧ (loadHistory (Json.obj [("name", Json.str "UKX"),
          ("history", Json.obj histW)]) = .error .valueError
       ∧ loadedDates (Json.obj [("name", Json.str "UKX"),
          ("history", Json.obj histW)]) = none) :=
  ⟨by rfl,
    loader_never_yields_series
      [("name", Json.str "UKX"), ("history", Json.obj histW)]
      (Json.obj histW) (by rfl)⟩

/-- C5 counterexample to the claim as stated: a payload with no `history` key
fails with a `KeyError`, and a payload whose record is missing its `close`
field fails with the constructor's `ValueError` — neither is the
`MalformedResponseError` the claim names. -/
theorem loader_error_kind_cex :
    loadHistory payloadNoHistory = .error (.keyError "history")
    ∧ PyError.keyError "history" ≠ PyError.malformedResponse
    ∧ loadHistory payloadMissingField = .error .valueError
    ∧ PyError.valueError ≠ PyError.malformedResponse :=
  ⟨by rfl, by decide, by rfl, by decide⟩

/-- C5 (amended): a body whose parsed JSON lacks the top-level `history` key
fails with a plain `KeyError`; every body that does hold a `history` key —
including those whose records are missing open/high/low/close/volume fields
or carry unparseable numeric strings — fails with the `DataFrame`
constructor's `ValueError`, raised before any record or field is ever
examined.  No field-level validation happens anywhere, and no
`MalformedResponseError` exists in the program. -/
theorem loader_error_behavior (members1 members2 : List (String × Json))
    (v : Json) (h1 : alistGet members1 "history" = none)
    (h2 : alistGet members2 "history" = some v) :
    loadHistory (Json.obj members1) = .error (.keyError "history")
    ∧ loadHistory (Json.obj members2) = .error .valueError := by
  constructor
  · simp only [loadHistory]
    rw [h1]
  · simp only [loadHistory]
    rw [h2]

/-- C5 witness. -/
theorem loader_error_behavior_witness :
    alistGet [("name", Json.str "UKX")] "history" = none
    ∧ alistGet [("history", Json.obj [("2018-10-16", jrecMissingClose)])]
        "history" = some (Json.obj [("2018-10-16", jrecMissingClose)])
    ∧ (loadHistory (Json.obj [("name", Json.str "UKX")])
        = .error (.keyError "history")
       ∧ loadHistory (Json.obj [("history",
           Json.obj [("2018-10-16", jrecMissingClose)])]) = .error .valueError) :=
  ⟨by rfl, by rfl,
    loader_error_behavior [("name", Json.str "UKX")]
      [("history", Json.obj [("2018-10-16", jrecMissingClose)])]
      (Json.obj [("2018-10-16", jrecMissingClose)]) (by rfl) (by rfl)⟩

/-- C6 counterexample to the claim as stated: on the payload with an empty
`history` object the pipeline does *not* return a result — an error is
raised. -/
theorem empty_history_no_error_cex : pipelineOk payloadEmptyHistory = false := by
  rfl

/-- C6 (amended): for the empty-history payload no empty result is returned
and no empty Time Series survives to the calculator: the loader itself fails
with a `ValueError` when the re-serialized history string reaches the
`DataFrame` constructor at line 96, and the pipeline propagates that same
exception. -/
theorem empty_history_value_error :
    loadHistory payloadEmptyHistory = .error .valueError
    ∧ get_atr_dataframe payloadEmptyHistory = .error .valueError :=
  ⟨by rfl, by rfl⟩
